import Mathlib

/-!
Verification of `tensei/unrustlelogs` (`src/main.go`) against its
natural-language specification.

The Go program is shallowly embedded: each Go map is an association list
(or a plain list of keys), each store operation is a pure function from
store to store, and the goroutine-per-entry expiry timers are made
explicit as a list of scheduled `(nonce, fireTime)` actions. Times are
natural numbers counted in minutes. A Go runtime panic (in particular
the nil-pointer dereference in `hasDggState` on an absent key) is
modelled as the `none` result of an `Option`-valued function.
-/

namespace UnRustle

/-- Service tag constant `TWITCHSERVICE` from `main.go`. -/
def TWITCHSERVICE : String := "twtch"

/-- Service tag constant `DESTINYGGSERVICE` from `main.go`. -/
def DESTINYGGSERVICE : String := "destinygg"

/-- Page title constant `TITLE` from `main.go`. -/
def TITLE : String := "UnRustleLogs"

/-- The `state` struct stored in `dggStates` (`main.go` lines 30-34).
`time.Time` is modelled as a natural number of minutes. -/
structure StateEntry where
  service  : String
  verifier : String
  time     : Nat
deriving Repr, DecidableEq

/-- The `dggStates` map `map[string]*state`, as an association list with
unique keys (Go map semantics: assignment overwrites). -/
abbrev DggEntries := List (String × StateEntry)

/-- The `twitchStates` map `map[string]struct\x7b\x7d`: only key presence
matters, so it is a list of keys. -/
abbrev TwitchEntries := List String

/-- Go map lookup `ur.dggStates[state]`: first entry with the given key. -/
def dggLookup (entries : DggEntries) (st : String) : Option StateEntry :=
  (entries.find? (fun p => p.1 == st)).map Prod.snd

/-- Function `hasTwitchState` (`main.go` lines 298-303): `_, ok := ur.twitchStates[state];
return ok`. Safe on absent keys, since the value is never dereferenced. -/
def hasTwitchState (entries : TwitchEntries) (st : String) : Bool :=
  entries.contains st

/-- Function `hasDggState` (`main.go` lines 271-276):
`s, ok := ur.dggStates[state]; return s.verifier, ok`.
On a present key it returns `some (verifier, true)`. On an absent key the
Go code dereferences the nil `*state` pointer (`s.verifier` with `s = nil`)
and panics; that fault is modelled as `none`. The code never produces a
`(_, false)` return. -/
def hasDggState (entries : DggEntries) (st : String) : Option (String × Bool) :=
  match dggLookup entries st with
  | some e => some (e.verifier, true)
  | none   => none

/-- Function `deleteTwitchState` (`main.go` lines 305-313): check presence under the
lock, delete only when present. -/
def deleteTwitchState (entries : TwitchEntries) (st : String) : TwitchEntries :=
  if entries.contains st then entries.filter (fun x => x != st) else entries

/-- Function `deleteDggState` (`main.go` lines 278-286): check presence under the
lock, delete only when present. -/
def deleteDggState (entries : DggEntries) (st : String) : DggEntries :=
  if (dggLookup entries st).isSome then entries.filter (fun p => p.1 != st)
  else entries

/-- The twitch State Store together with its scheduled expiry actions:
each `(nonce, t)` in `timers` is a pending goroutine that will run
`deleteTwitchState nonce` at time `t`. -/
structure TwitchStore where
  entries : TwitchEntries
  timers  : List (String × Nat)
deriving Repr, DecidableEq

/-- The dgg State Store together with its scheduled expiry actions. -/
structure DggStore where
  entries : DggEntries
  timers  : List (String × Nat)
deriving Repr, DecidableEq

/-- Function `addTwitchState` (`main.go` lines 288-296): inserts the key
(`ur.twitchStates[s] = struct\x7b\x7d\x7b\x7d`, overwrite semantics) and spawns a
goroutine that sleeps 5 minutes and then calls `deleteTwitchState s`,
recorded here as the scheduled action `(s, now + 5)`. -/
def addTwitchState (now : Nat) (st : TwitchStore) (s : String) : TwitchStore :=
  { entries := if st.entries.contains s then st.entries else s :: st.entries
    timers  := (s, now + 5) :: st.timers }

/-- Function `addDggState` (`main.go` lines 257-269): stores
`&state\x7bverifier: verifier, service: TWITCHSERVICE, time: now\x7d` under key `s`
(note: the source really writes `service: TWITCHSERVICE` in the dgg store)
and spawns a goroutine that sleeps 5 minutes and then calls
`deleteDggState s`, recorded as the scheduled action `(s, now + 5)`. -/
def addDggState (now : Nat) (st : DggStore) (s verifier : String) : DggStore :=
  { entries := (s, ⟨TWITCHSERVICE, verifier, now⟩) ::
                 st.entries.filter (fun p => p.1 != s)
    timers  := (s, now + 5) :: st.timers }

/-- Firing the expiry goroutine spawned by `addTwitchState s`: after the
sleep it simply runs `deleteTwitchState s` on the current entries. -/
def fireTwitchExpiry (entries : TwitchEntries) (s : String) : TwitchEntries :=
  deleteTwitchState entries s

/-- Firing the expiry goroutine spawned by `addDggState s`. -/
def fireDggExpiry (entries : DggEntries) (s : String) : DggEntries :=
  deleteDggState entries s

section StoreLemmas

theorem contains_filter_ne (l : List String) (s : String) :
    (l.filter (fun x => x != s)).contains s = false := by
  induction l with
  | nil => rfl
  | cons a t ih =>
    rw [List.filter_cons]
    by_cases h : a = s
    · simp [h, ih]
    · have hb : (a != s) = true := by simpa [bne_iff_ne] using h
      simp [hb, List.contains_cons, ih, Ne.symm h]

theorem find_filter_keyne (l : DggEntries) (s : String) :
    (l.filter (fun p => p.1 != s)).find? (fun p => p.1 == s) = none := by
  induction l with
  | nil => rfl
  | cons a t ih =>
    rw [List.filter_cons]
    by_cases h : a.1 = s
    · simp [h, ih]
    · have hb : (a.1 != s) = true := by simpa [bne_iff_ne] using h
      simp [hb, List.find?_cons, ih, h]

end StoreLemmas

/-! ## The interleaving semantics of the consume step

`hasTwitchState` holds the read lock only for the lookup and
`deleteTwitchState` holds the write lock only for the delete, so each of
the two operations is one atomic step, but the lookup-then-delete
sequence of a consume is not. Two callers each running the program
`[lookup, del]` on a shared store are modelled below, with an arbitrary
interleaving of their atomic steps. -/

/-- One atomic step of a consume: either the locked lookup
(`hasTwitchState`) or the locked check-and-delete (`deleteTwitchState`). -/
inductive ConsumeOp where
  | lookup
  | del
deriving Repr, DecidableEq

/-- A caller of the consume sequence: its remaining atomic steps and the
`found` value it observed from its lookup (if the lookup ran yet). -/
structure Caller where
  steps : List ConsumeOp
  seen  : Option Bool
deriving Repr, DecidableEq

/-- The full consume program of one callback request on the twitch store:
`hasTwitchState` then `deleteTwitchState` (the spec's read-and-delete). -/
def consumeProg : List ConsumeOp := [ConsumeOp.lookup, ConsumeOp.del]

/-- Run one atomic step of a caller's consume program against the shared
twitch entries. Each step is atomic because each source function acquires
and releases the store's lock internally; nothing holds the lock across
the two steps. -/
def twStep (n : String) (entries : TwitchEntries) (c : Caller) :
    TwitchEntries × Caller :=
  match c.steps with
  | [] => (entries, c)
  | ConsumeOp.lookup :: rest =>
      (entries, { steps := rest, seen := some (hasTwitchState entries n) })
  | ConsumeOp.del :: rest =>
      (deleteTwitchState entries n, { steps := rest, seen := c.seen })

/-- Run two callers A and B under a schedule: `true` schedules A's next
atomic step, `false` schedules B's. -/
def twRun (n : String) : List Bool → TwitchEntries → Caller → Caller →
    TwitchEntries × Caller × Caller
  | [], entries, a, b => (entries, a, b)
  | true :: sched, entries, a, b =>
      let p := twStep n entries a
      twRun n sched p.1 p.2 b
  | false :: sched, entries, a, b =>
      let p := twStep n entries b
      twRun n sched p.1 a p.2

/-! ## HTTP-layer model: requests, JWT validation, middleware, handlers -/

/-- The claims struct `jwtClaims` (`main.go` lines 46-53); the embedded
`jwt.StandardClaims` carry no data read by this code. -/
structure JwtClaims where
  id          : String
  name        : String
  email       : String
  displayName : String
  service     : String
deriving Repr, DecidableEq

/-- The result of `jwt.ParseWithClaims` when it returns without error:
the parsed claims and the token's `Valid` flag. -/
structure Token where
  claims : JwtClaims
  valid  : Bool
deriving Repr, DecidableEq

/-- The JWT library's parse-and-validate step, external to this repository
(signature check, expiry check). An expired, forged or malformed token
yields `Except.error`. -/
abbrev ParseFn := String → Except String Token

/-- An inbound HTTP request: its cookies and query parameters. -/
structure Request where
  cookies : List (String × String)
  query   : List (String × String)
deriving Repr, DecidableEq

/-- Accessor for `c.Cookie name`: the request cookie of that name, if present. -/
def Request.getCookie (r : Request) (cname : String) : Option String :=
  (r.cookies.find? (fun p => p.1 == cname)).map Prod.snd

/-- Accessor for `c.Query name`: gin returns the empty string when the parameter is
absent. -/
def Request.queryGet (r : Request) (qname : String) : String :=
  ((r.query.find? (fun p => p.1 == qname)).map Prod.snd).getD ""

/-- The preference-store collaborator's table, keyed by (name, service).
Modelled from the spec: `DeletionPreference` rows live outside this file's
source (`database.go` is not under src/); the spec says existence of a
row means "exclude this user's logs". -/
abbrev PrefStore := List (String × String)

/-- Modelled from the spec: `AddUser(key, service)` creates the
(name, service) row; row existence is what matters, so inserting an
already-present row is a no-op. -/
def AddUser (db : PrefStore) (uname service : String) : PrefStore :=
  if db.contains (uname, service) then db else (uname, service) :: db

/-- Modelled from the spec: `DeleteUser(key, service)` removes the
(name, service) row. -/
def DeleteUser (db : PrefStore) (uname service : String) : PrefStore :=
  db.filter (fun p => p != (uname, service))

/-- Modelled from the spec: `Exists(key, service) -> bool`, called
`UserInDatabase` at the `indexHandler` call sites. -/
def UserInDatabase (db : PrefStore) (uname service : String) : Bool :=
  db.contains (uname, service)

/-- The gin context state a wrapped handler can observe: the `"user"`
key set (or not) by `c.Set`/`c.Get`. -/
structure HandlerCtx where
  user : Option JwtClaims
deriving Repr, DecidableEq

/-- What a delete/undelete handler does with the request (`main.go`
lines 169-197). -/
inductive HandlerResult where
  | unauthorizedJSON
  | redirectFound (loc : String)
deriving Repr, DecidableEq

/-- Handler `deleteHandler(service)` (`main.go` lines 169-182): reads
`c.Get("user")`; without it, 401 JSON; with claims `u`, records the
preference via `AddUser(u.Name, service)` and redirects to
`/?delete=true`. -/
def deleteHandler (service : String) (db : PrefStore) (c : HandlerCtx) :
    HandlerResult × PrefStore :=
  match c.user with
  | none => (HandlerResult.unauthorizedJSON, db)
  | some u => (HandlerResult.redirectFound "/?delete=true", AddUser db u.name service)

/-- Handler `undeleteHandler(service)` (`main.go` lines 184-197): like
`deleteHandler` but calls `DeleteUser` and redirects to `/?delete=false`. -/
def undeleteHandler (service : String) (db : PrefStore) (c : HandlerCtx) :
    HandlerResult × PrefStore :=
  match c.user with
  | none => (HandlerResult.unauthorizedJSON, db)
  | some u => (HandlerResult.redirectFound "/?delete=false", DeleteUser db u.name service)

/-- The outcome of `jwtMiddleware` (`main.go` lines 219-255). The
`clearedCookieName` in `parseError` is the name handed to
`ur.deleteCookie` — in the source the local `cookie` has been shadowed by
the cookie's value, so the VALUE is what gets passed. `deleteCookie`
itself is modelled from the spec: it clears the cookie of the given name. -/
inductive MwOut (α : Type) where
  | missingCookie
  | parseError (clearedCookieName : String)
  | invalidRedirect (loc : String)
  | handled (a : α)
deriving Repr, DecidableEq

/-- Middleware `jwtMiddleware(fn, cookie)` (`main.go` lines 219-255), faithful to the
source's variable shadowing: after `cookie, err := c.Cookie(cookie)` the
name `cookie` holds the cookie VALUE, so the parse-error branch calls
`deleteCookie(c, value)` and the invalid-token switch compares the VALUE
against the configured cookie names. On success it sets `"user"` to the
claims and invokes `fn`. -/
def jwtMiddleware {α : Type} (parse : ParseFn)
    (twitchCookieName dggCookieName : String)
    (fn : HandlerCtx → α) (cookieName : String) (req : Request) : MwOut α :=
  match req.getCookie cookieName with
  | none => MwOut.missingCookie
  | some value =>
    match parse value with
    | Except.error _ => MwOut.parseError value
    | Except.ok tok =>
      if tok.valid then
        MwOut.handled (fn { user := some tok.claims })
      else if value == twitchCookieName then
        MwOut.invalidRedirect "/twitch/logout"
      else if value == dggCookieName then
        MwOut.invalidRedirect "/dgg/logout"
      else
        MwOut.invalidRedirect "/"

/-- Function `getUser(c, cookie)` (`main.go` lines 199-217). Returns the validated
claims (first component) and, mirroring the parse-error branch's
`ur.deleteCookie(c, cookie)` under the same shadowing, the cookie name it
asked to clear (second component). -/
def getUser (parse : ParseFn) (req : Request) (cookieName : String) :
    Option JwtClaims × Option String :=
  match req.getCookie cookieName with
  | none => (none, none)
  | some value =>
    match parse value with
    | Except.error _ => (none, some value)
    | Except.ok tok => if tok.valid then (some tok.claims, none) else (none, none)

/-- The `Payload.Twitch` section (`main.go` lines 132-137); Go zero
values as defaults. -/
structure TwitchSection where
  pname      : String := ""
  email      : String := ""
  loggedIn   : Bool := false
  isDeleting : Bool := false
deriving Repr, DecidableEq

/-- The `Payload.Destinygg` section (`main.go` lines 138-142). -/
structure DggSection where
  pname      : String := ""
  loggedIn   : Bool := false
  isDeleting : Bool := false
deriving Repr, DecidableEq

/-- The `Payload` rendered by `indexHandler` (`main.go` lines 129-144). -/
structure Payload where
  title        : String := ""
  twitch       : TwitchSection := {}
  destinygg    : DggSection := {}
  deleteStatus : String := ""
deriving Repr, DecidableEq

/-- Handler `indexHandler` (`main.go` lines 146-167): builds the payload from the
two independent `getUser` validations and the `delete` query parameter,
and renders it with HTTP status 200. The returned number is the HTTP
status passed to `c.HTML`. -/
def indexHandler (parse : ParseFn) (twitchCookieName dggCookieName : String)
    (db : PrefStore) (req : Request) : Nat × Payload :=
  let base : Payload := { title := TITLE }
  let p1 :=
    match (getUser parse req twitchCookieName).1 with
    | some u =>
        { base with twitch :=
          { pname := u.displayName, email := u.email, loggedIn := true
            isDeleting := UserInDatabase db u.name TWITCHSERVICE } }
    | none => base
  let p2 :=
    match (getUser parse req dggCookieName).1 with
    | some u =>
        { p1 with destinygg :=
          { pname := u.displayName, loggedIn := true
            isDeleting := UserInDatabase db u.name DESTINYGGSERVICE } }
    | none => p1
  let s := req.queryGet "delete"
  let p3 := if s != "" then { p2 with deleteStatus := s } else p2
  (200, p3)

/-! ## Helper lemmas -/

theorem filter_ne_self {α : Type} [BEq α] [LawfulBEq α] (l : List α) (x : α)
    (h : l.contains x = false) : l.filter (fun y => y != x) = l := by
  induction l with
  | nil => rfl
  | cons a t ih =>
    simp only [List.contains_cons, Bool.or_eq_false_iff] at h
    rw [List.filter_cons]
    have hne : (a != x) = true := by
      simpa [bne_iff_ne] using fun e => by simp [e] at h
    rw [hne]
    simp [ih h.2]

theorem contains_addTwitchState (now : Nat) (st : TwitchStore) (s : String) :
    (addTwitchState now st s).entries.contains s = true := by
  unfold addTwitchState
  by_cases h : st.entries.contains s
  · rw [if_pos h]; exact h
  · rw [if_neg h]; simp [List.contains_cons]

theorem contains_AddUser (db : PrefStore) (uname service : String) :
    (AddUser db uname service).contains (uname, service) = true := by
  unfold AddUser
  by_cases h : db.contains (uname, service)
  · rw [if_pos h]; exact h
  · rw [if_neg h]; simp [List.contains_cons]

theorem hasTwitch_after_expiry (now : Nat) (st : TwitchStore) (s : String) :
    hasTwitchState (fireTwitchExpiry (addTwitchState now st s).entries s) s
      = false := by
  unfold fireTwitchExpiry deleteTwitchState
  rw [contains_addTwitchState]
  simp [hasTwitchState, contains_filter_ne (addTwitchState now st s).entries s]

theorem hasDgg_after_expiry (now : Nat) (dst : DggStore) (s v : String) :
    hasDggState (fireDggExpiry (addDggState now dst s v).entries s) s = none := by
  unfold fireDggExpiry deleteDggState
  have hl : dggLookup (addDggState now dst s v).entries s
      = some { service := TWITCHSERVICE, verifier := v, time := now } := by
    simp [addDggState, dggLookup, List.find?_cons]
  rw [hl]
  simp only [Option.isSome_some, if_true]
  have h2 : dggLookup
      ((addDggState now dst s v).entries.filter (fun p => p.1 != s)) s = none := by
    unfold dggLookup
    rw [find_filter_keyne]
    rfl
  simp [hasDggState, h2]

/-- Two dgg-store entry values that agree on everything the store
operations ever read: the verifier. The `service` and `time` fields may
differ. -/
def entryAgree (e₁ e₂ : StateEntry) : Prop :=
  e₁.verifier = e₂.verifier

/-- Two dgg stores that agree entrywise on keys and verifiers (the
`service` labels may differ arbitrarily). -/
def dggAgree (l₁ l₂ : DggEntries) : Prop :=
  List.Forall₂ (fun p q => p.1 = q.1 ∧ entryAgree p.2 q.2) l₁ l₂

theorem dggAgree_lookup (q : String) :
    ∀ {l₁ l₂ : DggEntries}, dggAgree l₁ l₂ →
      Option.map StateEntry.verifier (dggLookup l₁ q)
        = Option.map StateEntry.verifier (dggLookup l₂ q) := by
  intro l₁ l₂ h
  induction h with
  | nil => rfl
  | cons hab htail ih =>
    rename_i a b t₁ t₂
    unfold dggLookup at ih ⊢
    rw [List.find?_cons, List.find?_cons]
    by_cases hk : a.1 = q
    · have hk' : b.1 = q := hab.1 ▸ hk
      have hv : a.2.verifier = b.2.verifier := hab.2
      simp [hk, hk', hv]
    · have hk' : ¬b.1 = q := fun e => hk (hab.1 ▸ e)
      have hb : (a.1 == q) = false := by simp [hk]
      have hb' : (b.1 == q) = false := by simp [hk']
      simpa [hb, hb'] using ih

theorem dggAgree_lookup_isSome (q : String) {l₁ l₂ : DggEntries}
    (h : dggAgree l₁ l₂) :
    (dggLookup l₁ q).isSome = (dggLookup l₂ q).isSome := by
  have hm := dggAgree_lookup q h
  cases h1 : dggLookup l₁ q <;> cases h2 : dggLookup l₂ q <;>
    rw [h1, h2] at hm <;> simp_all

theorem dggAgree_has (q : String) {l₁ l₂ : DggEntries} (h : dggAgree l₁ l₂) :
    hasDggState l₁ q = hasDggState l₂ q := by
  have hm := dggAgree_lookup q h
  unfold hasDggState
  cases h1 : dggLookup l₁ q <;> cases h2 : dggLookup l₂ q <;>
    rw [h1, h2] at hm <;> simp_all

theorem dggAgree_filter (q : String) :
    ∀ {l₁ l₂ : DggEntries}, dggAgree l₁ l₂ →
      dggAgree (l₁.filter (fun p => p.1 != q)) (l₂.filter (fun p => p.1 != q)) := by
  intro l₁ l₂ h
  induction h with
  | nil => exact List.Forall₂.nil
  | cons hab htail ih =>
    rename_i a b t₁ t₂
    rw [List.filter_cons, List.filter_cons]
    have hc : (a.1 != q) = (b.1 != q) := by rw [hab.1]
    rw [hc]
    by_cases hk : (b.1 != q) = true
    · rw [hk]
      exact List.Forall₂.cons hab ih
    · rw [Bool.not_eq_true] at hk
      rw [hk]
      exact ih

theorem dggAgree_delete (q : String) {l₁ l₂ : DggEntries} (h : dggAgree l₁ l₂) :
    dggAgree (deleteDggState l₁ q) (deleteDggState l₂ q) := by
  unfold deleteDggState
  rw [dggAgree_lookup_isSome q h]
  by_cases hs : (dggLookup l₂ q).isSome = true
  · rw [if_pos hs, if_pos hs]
    exact dggAgree_filter q h
  · rw [if_neg hs, if_neg hs]
    exact h

/-- Whenever `jwtMiddleware` reaches its wrapped handler at all, the
handler was invoked on a context whose `"user"` key holds some validated
claims. -/
theorem jwtMiddleware_handled_user_some {α : Type} (parse : ParseFn)
    (tn dn : String) (fn : HandlerCtx → α) (cookieName : String)
    (req : Request) (a : α)
    (h : jwtMiddleware parse tn dn fn cookieName req = MwOut.handled a) :
    ∃ u : JwtClaims, a = fn { user := some u } := by
  unfold jwtMiddleware at h
  split at h
  · simp at h
  · split at h
    · simp at h
    · rename_i tok heq
      split at h
      · simp only [MwOut.handled.injEq] at h
        exact ⟨tok.claims, h.symm⟩
      · split at h
        · simp at h
        · split at h <;> simp at h

/-! ## Concrete fixtures used by witnesses -/

/-- A concrete set of validated claims. -/
def aliceClaims : JwtClaims :=
  { id := "1", name := "alice", email := "a@b", displayName := "Alice"
    service := TWITCHSERVICE }

/-- A parse function accepting exactly the token string "goodtok" as a
valid token carrying `aliceClaims`. -/
def goodParse : ParseFn := fun s =>
  if s == "goodtok" then Except.ok { claims := aliceClaims, valid := true }
  else Except.error "signature is invalid"

/-- A parse function rejecting every token, as `jwt.ParseWithClaims` does
for an expired, forged or malformed token. -/
def expiredParse : ParseFn := fun _ => Except.error "token is expired"

/-- A request carrying one valid twitch session cookie. -/
def twitchReq : Request := { cookies := [("twc", "goodtok")], query := [] }

/-- A request whose only content is a non-boolean `delete` query value. -/
def delReq : Request := { cookies := [], query := [("delete", "weird")] }

/-- A one-entry dgg store labelled with the twitch service tag (what
`addDggState` really writes). -/
def mislabeledL1 : DggEntries :=
  [("n", { service := TWITCHSERVICE, verifier := "v", time := 0 })]

/-- The same store relabelled with the dgg service tag. -/
def mislabeledL2 : DggEntries :=
  [("n", { service := DESTINYGGSERVICE, verifier := "v", time := 0 })]

/-! ## Claim theorems -/

/-- Claim C1, refuted in part: on an absent nonce `hasTwitchState` does
return `false` without failing, but `hasDggState` executes
`s, ok := ur.dggStates[state]; return s.verifier, ok` with `s = nil` and
panics on the nil dereference (modelled as `none`); it never returns the
claimed `(_, false)` pair. -/
theorem hasDggState_absent_nonce_faults :
    hasDggState ([] : DggEntries) "nonce" = none
    ∧ hasTwitchState ([] : TwitchEntries) "nonce" = false :=
  ⟨rfl, rfl⟩

/-- Claim C2, refuted: with nonce "n" in the store and two callers each
running the consume sequence (lookup, then delete), the interleaving
A.lookup, B.lookup, A.delete, B.delete makes BOTH callers observe
found=true, because the read lock of `hasTwitchState` is released before
the write lock of `deleteTwitchState` is acquired; the check and the
delete are not a single atomic critical section. -/
theorem consume_race_both_observe_found :
    twRun "n" [true, false, true, false] ["n"]
        { steps := consumeProg, seen := none }
        { steps := consumeProg, seen := none }
      = ([], { steps := [], seen := some true },
              { steps := [], seen := some true }) := by
  rfl

/-- Claim C4, counterexample: for a dgg entry added at time 0 with nonce
"n" and not consumed, once the scheduled expiry action fires the lookup
with the correct nonce does NOT return a not-found `(_, false)` result as
the claim states — it hits the nil-pointer dereference of `hasDggState`
on the now-absent key (modelled as `none`). -/
theorem dgg_expiry_lookup_faults :
    hasDggState
      (fireDggExpiry (addDggState 0 { entries := [], timers := [] } "n" "v").entries "n")
      "n" = none := by
  rfl

/-- Claim C4 as amended: every `addTwitchState`/`addDggState` call
schedules a removal action for 5 minutes after issuance, and once that
action fires the entry is deleted, so it is unconsumable:
`hasTwitchState` returns found=false, and `hasDggState` no longer finds
the entry (on the absent key it faults instead of returning found=false). -/
theorem state_expiry_scheduled_and_unconsumable
    (now : Nat) (tst : TwitchStore) (dst : DggStore) (s v : String) :
    ((s, now + 5) ∈ (addTwitchState now tst s).timers
      ∧ hasTwitchState (fireTwitchExpiry (addTwitchState now tst s).entries s) s
          = false)
    ∧ ((s, now + 5) ∈ (addDggState now dst s v).timers
      ∧ hasDggState (fireDggExpiry (addDggState now dst s v).entries s) s
          = none) :=
  ⟨⟨List.mem_cons_self _ _, hasTwitch_after_expiry now tst s⟩,
   ⟨List.mem_cons_self _ _, hasDgg_after_expiry now dst s v⟩⟩

/-- Claim C7: deleting a nonce that is not present is a no-op on both
stores — the entries are returned unchanged and no fault occurs, so the
expiry action tolerates an entry already removed by a consume. -/
theorem deleteState_absent_noop
    (tentries : TwitchEntries) (dentries : DggEntries) (s : String)
    (ht : tentries.contains s = false) (hd : dggLookup dentries s = none) :
    deleteTwitchState tentries s = tentries
    ∧ deleteDggState dentries s = dentries := by
  constructor
  · unfold deleteTwitchState
    rw [if_neg (by simpa using ht)]
  · unfold deleteDggState
    rw [if_neg (by simp [hd])]

/-- Witness for claim C7 at a concrete store and absent nonce. -/
theorem deleteState_absent_noop_witness :
    (["a"] : TwitchEntries).contains "b" = false
    ∧ dggLookup ([] : DggEntries) "b" = none
    ∧ deleteTwitchState ["a"] "b" = ["a"]
    ∧ deleteDggState ([] : DggEntries) "b" = [] :=
  ⟨by decide, rfl,
   (deleteState_absent_noop ["a"] [] "b" (by decide) rfl).1,
   (deleteState_absent_noop ["a"] [] "b" (by decide) rfl).2⟩

/-- Claim C3, refuted on the cookie-name part: a request presenting an
expired session cookie under the configured cookie name "twitchjwt" gets
the 401 JSON response, but the name passed to `deleteCookie` is the
cookie's VALUE "expired.jwt.value" — the local `cookie` was shadowed by
`cookie, err := c.Cookie(cookie)` — so the cookie is not cleared under
its configured name. -/
theorem jwtMiddleware_clears_value_named_cookie :
    jwtMiddleware expiredParse "twitchjwt" "dggjwt" (fun c => c) "twitchjwt"
        { cookies := [("twitchjwt", "expired.jwt.value")], query := [] }
      = MwOut.parseError "expired.jwt.value"
    ∧ "expired.jwt.value" ≠ "twitchjwt" :=
  ⟨rfl, by decide⟩

/-- Claim C8: whenever `jwtMiddleware` invokes its wrapped handler it has
set the `"user"` context key to the validated claims, so the
`c.Get("user")` not-ok branch of `deleteHandler` and `undeleteHandler`
(the inner 401 JSON) is unreachable through the middleware. -/
theorem jwtMiddleware_inner_unauthorized_unreachable
    (parse : ParseFn) (tn dn cookieName : String) (req : Request)
    (service : String) (db : PrefStore) :
    (∀ (r : HandlerResult) (db' : PrefStore),
      jwtMiddleware parse tn dn (deleteHandler service db) cookieName req
          = MwOut.handled (r, db') →
        r ≠ HandlerResult.unauthorizedJSON)
    ∧ (∀ (r : HandlerResult) (db' : PrefStore),
      jwtMiddleware parse tn dn (undeleteHandler service db) cookieName req
          = MwOut.handled (r, db') →
        r ≠ HandlerResult.unauthorizedJSON) := by
  constructor
  · intro r db' h
    obtain ⟨u, hu⟩ :=
      jwtMiddleware_handled_user_some parse tn dn _ cookieName req _ h
    simp only [deleteHandler, Prod.mk.injEq] at hu
    rw [hu.1]
    simp
  · intro r db' h
    obtain ⟨u, hu⟩ :=
      jwtMiddleware_handled_user_some parse tn dn _ cookieName req _ h
    simp only [undeleteHandler, Prod.mk.injEq] at hu
    rw [hu.1]
    simp

/-- Witness for claim C8: a concrete valid-token request through the
middleware reaches both handlers with the user set, producing a redirect
rather than the inner 401. -/
theorem jwtMiddleware_inner_unauthorized_unreachable_witness :
    jwtMiddleware goodParse "twc" "dgc" (deleteHandler TWITCHSERVICE []) "twc"
        twitchReq
      = MwOut.handled (HandlerResult.redirectFound "/?delete=true",
          [("alice", TWITCHSERVICE)])
    ∧ HandlerResult.redirectFound "/?delete=true"
        ≠ HandlerResult.unauthorizedJSON :=
  ⟨rfl,
   (jwtMiddleware_inner_unauthorized_unreachable goodParse "twc" "dgc" "twc"
      twitchReq TWITCHSERVICE []).1 _ _ rfl⟩

theorem AddUser_idem (db : PrefStore) (n s : String) :
    AddUser (AddUser db n s) n s = AddUser db n s := by
  have h := contains_AddUser db n s
  show (if (AddUser db n s).contains (n, s) then AddUser db n s
        else (n, s) :: AddUser db n s) = AddUser db n s
  rw [if_pos h]

/-- Claim C5: starting from a preference store without a row for
(name, service), running the delete handler (which calls `AddUser`) and
then the undelete handler (which calls `DeleteUser`) restores the store,
and running the delete handler twice leaves the same store as running it
once. -/
theorem delete_undelete_roundtrip_and_idempotent
    (service : String) (db : PrefStore) (u : JwtClaims)
    (habs : UserInDatabase db u.name service = false) :
    (undeleteHandler service (deleteHandler service db { user := some u }).2
        { user := some u }).2 = db
    ∧ (deleteHandler service (deleteHandler service db { user := some u }).2
        { user := some u }).2
      = (deleteHandler service db { user := some u }).2 := by
  have habs' : db.contains (u.name, service) = false := habs
  constructor
  · show DeleteUser (AddUser db u.name service) u.name service = db
    unfold AddUser DeleteUser
    rw [if_neg (by simpa using habs')]
    rw [List.filter_cons]
    have hself : (((u.name, service) : String × String) != (u.name, service))
        = false := by simp
    rw [hself]
    exact filter_ne_self db (u.name, service) habs'
  · show AddUser (AddUser db u.name service) u.name service
        = AddUser db u.name service
    exact AddUser_idem db u.name service

/-- Witness for claim C5 at the empty store and concrete claims. -/
theorem delete_undelete_roundtrip_and_idempotent_witness :
    UserInDatabase [] "alice" TWITCHSERVICE = false
    ∧ (undeleteHandler TWITCHSERVICE
        (deleteHandler TWITCHSERVICE [] { user := some aliceClaims }).2
        { user := some aliceClaims }).2 = []
    ∧ (deleteHandler TWITCHSERVICE
        (deleteHandler TWITCHSERVICE [] { user := some aliceClaims }).2
        { user := some aliceClaims }).2
      = (deleteHandler TWITCHSERVICE [] { user := some aliceClaims }).2 :=
  ⟨rfl,
   (delete_undelete_roundtrip_and_idempotent TWITCHSERVICE [] aliceClaims rfl).1,
   (delete_undelete_roundtrip_and_idempotent TWITCHSERVICE [] aliceClaims rfl).2⟩

theorem indexHandler_proj (parse : ParseFn) (tn dn : String) (db : PrefStore)
    (req : Request) :
    (indexHandler parse tn dn db req).1 = 200
    ∧ (indexHandler parse tn dn db req).2.title = TITLE
    ∧ (indexHandler parse tn dn db req).2.twitch
        = (match (getUser parse req tn).1 with
           | some u =>
              { pname := u.displayName, email := u.email, loggedIn := true
                isDeleting := UserInDatabase db u.name TWITCHSERVICE }
           | none => {})
    ∧ (indexHandler parse tn dn db req).2.destinygg
        = (match (getUser parse req dn).1 with
           | some u =>
              { pname := u.displayName, loggedIn := true
                isDeleting := UserInDatabase db u.name DESTINYGGSERVICE }
           | none => {})
    ∧ (indexHandler parse tn dn db req).2.deleteStatus
        = (if req.queryGet "delete" != "" then req.queryGet "delete" else "") := by
  unfold indexHandler
  cases hT : (getUser parse req tn).1 <;> cases hD : (getUser parse req dn).1 <;>
    by_cases hq : (req.queryGet "delete" != "") = true <;>
      simp [hT, hD, hq]

/-- Claim C6: `indexHandler` always renders with HTTP status 200; a
provider whose cookie is absent or invalid (its `getUser` yields no
claims) renders with LoggedIn=false, and a provider whose cookie is valid
renders LoggedIn=true, the claims' display name, and IsDeleting equal to
the preference store's Exists value for that user and service. -/
theorem indexHandler_renders_login_status (parse : ParseFn) (tn dn : String)
    (db : PrefStore) (req : Request) :
    (indexHandler parse tn dn db req).1 = 200
    ∧ ((getUser parse req tn).1 = none →
        (indexHandler parse tn dn db req).2.twitch.loggedIn = false)
    ∧ (∀ u : JwtClaims, (getUser parse req tn).1 = some u →
        (indexHandler parse tn dn db req).2.twitch.loggedIn = true
        ∧ (indexHandler parse tn dn db req).2.twitch.pname = u.displayName
        ∧ (indexHandler parse tn dn db req).2.twitch.isDeleting
            = UserInDatabase db u.name TWITCHSERVICE)
    ∧ ((getUser parse req dn).1 = none →
        (indexHandler parse tn dn db req).2.destinygg.loggedIn = false)
    ∧ (∀ u : JwtClaims, (getUser parse req dn).1 = some u →
        (indexHandler parse tn dn db req).2.destinygg.loggedIn = true
        ∧ (indexHandler parse tn dn db req).2.destinygg.pname = u.displayName
        ∧ (indexHandler parse tn dn db req).2.destinygg.isDeleting
            = UserInDatabase db u.name DESTINYGGSERVICE) := by
  obtain ⟨h1, h2, h3, h4, h5⟩ := indexHandler_proj parse tn dn db req
  refine ⟨h1, ?_, ?_, ?_, ?_⟩
  · intro hT
    rw [h3, hT]
  · intro u hT
    rw [h3, hT]
    exact ⟨rfl, rfl, rfl⟩
  · intro hD
    rw [h4, hD]
  · intro u hD
    rw [h4, hD]
    exact ⟨rfl, rfl, rfl⟩

/-- Witness for claim C6: a request with a valid twitch cookie and no dgg
cookie renders 200, twitch LoggedIn=true with name "Alice" and
IsDeleting matching the store, dgg LoggedIn=false. -/
theorem indexHandler_renders_login_status_witness :
    (getUser goodParse twitchReq "twc").1 = some aliceClaims
    ∧ (getUser goodParse twitchReq "dgc").1 = none
    ∧ (indexHandler goodParse "twc" "dgc" [("alice", TWITCHSERVICE)] twitchReq).1
        = 200
    ∧ (indexHandler goodParse "twc" "dgc" [("alice", TWITCHSERVICE)]
        twitchReq).2.twitch.loggedIn = true
    ∧ (indexHandler goodParse "twc" "dgc" [("alice", TWITCHSERVICE)]
        twitchReq).2.twitch.pname = "Alice"
    ∧ (indexHandler goodParse "twc" "dgc" [("alice", TWITCHSERVICE)]
        twitchReq).2.twitch.isDeleting = true
    ∧ (indexHandler goodParse "twc" "dgc" [("alice", TWITCHSERVICE)]
        twitchReq).2.destinygg.loggedIn = false := by
  have h := indexHandler_renders_login_status goodParse "twc" "dgc"
    [("alice", TWITCHSERVICE)] twitchReq
  refine ⟨rfl, rfl, h.1, (h.2.2.1 aliceClaims rfl).1, ?_, ?_, h.2.2.2.1 rfl⟩
  · exact (h.2.2.1 aliceClaims rfl).2.1
  · rw [(h.2.2.1 aliceClaims rfl).2.2]
    rfl

/-- Claim C10: `indexHandler` copies any non-empty `delete` query value
verbatim into the payload's DeleteStatus field, and leaves DeleteStatus
empty when the parameter is absent or empty. -/
theorem indexHandler_deleteStatus_reflects_query (parse : ParseFn)
    (tn dn : String) (db : PrefStore) (req : Request) :
    (req.queryGet "delete" ≠ "" →
      (indexHandler parse tn dn db req).2.deleteStatus = req.queryGet "delete")
    ∧ (req.queryGet "delete" = "" →
      (indexHandler parse tn dn db req).2.deleteStatus = "") := by
  obtain ⟨-, -, -, -, h5⟩ := indexHandler_proj parse tn dn db req
  constructor
  · intro hq
    rw [h5, if_pos (by simpa [bne_iff_ne] using hq)]
  · intro hq
    rw [h5, if_neg (by simp [hq])]

/-- Witness for claim C10: the arbitrary non-boolean value "weird" is
reflected verbatim, and a request without the parameter yields "". -/
theorem indexHandler_deleteStatus_reflects_query_witness :
    Request.queryGet delReq "delete" = "weird"
    ∧ (indexHandler goodParse "twc" "dgc" [] delReq).2.deleteStatus = "weird"
    ∧ Request.queryGet twitchReq "delete" = ""
    ∧ (indexHandler goodParse "twc" "dgc" [] twitchReq).2.deleteStatus = "" := by
  have h1 := indexHandler_deleteStatus_reflects_query goodParse "twc" "dgc" [] delReq
  have h2 := indexHandler_deleteStatus_reflects_query goodParse "twc" "dgc" [] twitchReq
  exact ⟨rfl, h1.1 (by decide), rfl, h2.2 rfl⟩

/-- Claim C9: every entry written by `addDggState` carries the twitch
service tag `TWITCHSERVICE` ("twtch"), which differs from the dgg tag;
and the `service` field is unobservable — on any two stores agreeing on
keys and verifiers (service labels arbitrary), `hasDggState` returns the
same result and `deleteDggState` preserves the agreement. -/
theorem addDggState_service_mislabeled_unobservable
    (now : Nat) (dst : DggStore) (s v q : String) (l₁ l₂ : DggEntries)
    (h : dggAgree l₁ l₂) :
    (dggLookup (addDggState now dst s v).entries s
        = some { service := TWITCHSERVICE, verifier := v, time := now }
      ∧ TWITCHSERVICE ≠ DESTINYGGSERVICE)
    ∧ hasDggState l₁ q = hasDggState l₂ q
    ∧ dggAgree (deleteDggState l₁ q) (deleteDggState l₂ q) := by
  refine ⟨⟨?_, by decide⟩, dggAgree_has q h, dggAgree_delete q h⟩
  simp [addDggState, dggLookup, List.find?_cons]

/-- Witness for claim C9 on two one-entry stores differing only in the
service label. -/
theorem addDggState_service_mislabeled_unobservable_witness :
    dggAgree mislabeledL1 mislabeledL2
    ∧ ((dggLookup (addDggState 0 { entries := [], timers := [] } "n" "v").entries "n"
          = some { service := TWITCHSERVICE, verifier := "v", time := 0 }
        ∧ TWITCHSERVICE ≠ DESTINYGGSERVICE)
      ∧ hasDggState mislabeledL1 "n" = hasDggState mislabeledL2 "n"
      ∧ dggAgree (deleteDggState mislabeledL1 "n")
          (deleteDggState mislabeledL2 "n")) :=
  have h : dggAgree mislabeledL1 mislabeledL2 :=
    List.Forall₂.cons ⟨rfl, rfl⟩ List.Forall₂.nil
  ⟨h, addDggState_service_mislabeled_unobservable 0
    { entries := [], timers := [] } "n" "v" "n" mislabeledL1 mislabeledL2 h⟩

end UnRustle
